import Mathlib

/-!
Verification of the AI-Salary-Navigator frontend core: the input normalizer,
the skill recommender, the form validator, the prediction client, the result
presenter, the analytics data-sufficiency classifier, and the skill-selection
state operations, shallowly embedded from the TypeScript sources.

Numbers are modelled as exact rationals (`ℚ`) and integers; JS strings are
modelled as Lean strings, with the ASCII fragments of `toLowerCase`,
`includes` and `trim` spelled out below.
-/

/-- ASCII lowercasing of a string, as JS `toLowerCase` acts on ASCII input. -/
def lowerStr (s : String) : String := ⟨s.data.map Char.toLower⟩

/-- Does the second character list start with the first one? -/
def leadsWith : List Char → List Char → Bool
  | [], _ => true
  | _ :: _, [] => false
  | a :: as, b :: bs => a == b && leadsWith as bs

/-- Substring occurrence on character lists (`hay` contains `needle`),
as JS `String.prototype.includes`. -/
def hasSub : List Char → List Char → Bool
  | [], needle => needle.isEmpty
  | a :: rest, needle => leadsWith needle (a :: rest) || hasSub rest needle

/-- JS `hay.includes(needle)` for strings. -/
def containsStr (hay needle : String) : Bool := hasSub hay.data needle.data

/-- Whitespace characters stripped by JS `String.prototype.trim`
(the ASCII ones). -/
def isJsSpace (c : Char) : Bool :=
  c == ' ' || c == '\t' || c == '\n' || c == '\r' || c.toNat == 11 || c.toNat == 12

/-- JS `String.prototype.trim`. -/
def jsTrim (s : String) : String :=
  ⟨((s.data.dropWhile isJsSpace).reverse.dropWhile isJsSpace).reverse⟩

/-- JS `Math.round`: nearest integer, ties toward positive infinity. -/
def jsRound (q : ℚ) : ℤ := ⌊q + 1/2⌋

/-- JS `x || d` on an optional numeric field: the default replaces both an
absent value and `0` (both are falsy). -/
def jsOrQ (x : Option ℚ) (d : ℚ) : ℚ :=
  match x with
  | none => d
  | some v => if v = 0 then d else v

/-- JS `x || d` on an optional string field: the default replaces both an
absent value and the empty string (both are falsy). -/
def jsOrStr (x : Option String) (d : String) : String :=
  match x with
  | none => d
  | some s => if s = "" then d else s

/-! ### Validation rule constants (`VALIDATION_RULES` in `lib/types.ts`) -/

/-- `VALIDATION_RULES.jobTitle.minLength`. -/
def jobTitleMinLength : Nat := 2

/-- `VALIDATION_RULES.jobTitle.maxLength`. -/
def jobTitleMaxLength : Nat := 200

/-- `VALIDATION_RULES.yearsExperience.min`. -/
def yearsExperienceMin : Int := 0

/-- `VALIDATION_RULES.yearsExperience.max`. -/
def yearsExperienceMax : Int := 50

/-- `VALIDATION_RULES.requiredSkills.maxItems`. -/
def requiredSkillsMaxItems : Nat := 20

/-- `VALIDATION_RULES.benefits.maxItems`. -/
def benefitsMaxItems : Nat := 15

/-- `VALIDATION_RULES.jobDescription.maxLength`. -/
def jobDescriptionMaxLength : Nat := 10000

/-! ### Input normalizer (`PredictionForm`) -/

/-- `getExperienceLevelFromYears` from the prediction form. -/
def getExperienceLevelFromYears (years : Int) : String :=
  if years ≤ 2 then "Entry Level"
  else if years ≤ 5 then "Mid Level"
  else if years ≤ 10 then "Senior Level"
  else "Executive"

/-! ### Skill recommender (`PredictionForm`) -/

/-- The `{core, advanced, tools}` skill groups attached to a role. -/
structure RoleSkills where
  core : List String
  advanced : List String
  tools : List String
deriving DecidableEq

/-- The empty recommendation returned when nothing matches. -/
def noSkills : RoleSkills := ⟨[], [], []⟩

/-- Skills of the `data scientist` taxonomy entry. -/
def dataScientistSkills : RoleSkills :=
  ⟨["Python", "Machine Learning", "Statistics", "SQL", "Pandas", "NumPy"],
   ["TensorFlow", "PyTorch", "Scikit-learn", "Deep Learning", "R"],
   ["Jupyter", "Git", "Docker", "AWS"]⟩

/-- Skills of the `ml engineer` taxonomy entry. -/
def mlEngineerSkills : RoleSkills :=
  ⟨["Python", "Machine Learning", "TensorFlow", "PyTorch", "Docker"],
   ["Kubernetes", "MLOps", "Deep Learning", "Model Deployment"],
   ["Git", "AWS", "Azure", "GCP", "Spark"]⟩

/-- Skills of the `data engineer` taxonomy entry. -/
def dataEngineerSkills : RoleSkills :=
  ⟨["Python", "SQL", "Spark", "Hadoop", "ETL"],
   ["Kafka", "Airflow", "Snowflake", "BigQuery"],
   ["Docker", "Kubernetes", "AWS", "Git", "MongoDB"]⟩

/-- Skills of the `data analyst` taxonomy entry. -/
def dataAnalystSkills : RoleSkills :=
  ⟨["SQL", "Python", "Excel", "Statistics", "Data Visualization"],
   ["Tableau", "Power BI", "R", "Pandas"],
   ["Git", "Jupyter", "Google Analytics"]⟩

/-- Skills of the `ai researcher` taxonomy entry. -/
def aiResearcherSkills : RoleSkills :=
  ⟨["Python", "Deep Learning", "TensorFlow", "PyTorch", "Research"],
   ["NLP", "Computer Vision", "Reinforcement Learning", "GANs"],
   ["Git", "Jupyter", "LaTeX", "Docker"]⟩

/-- Skills of the `software engineer` taxonomy entry. -/
def softwareEngineerSkills : RoleSkills :=
  ⟨["Python", "Git", "Algorithms", "Data Structures"],
   ["System Design", "Microservices", "APIs", "Testing"],
   ["Docker", "Kubernetes", "AWS", "CI/CD"]⟩

/-- Skills of the `product manager` taxonomy entry. -/
def productManagerSkills : RoleSkills :=
  ⟨["Product Strategy", "Analytics", "A/B Testing", "User Research"],
   ["SQL", "Data Analysis", "Market Research", "Roadmapping"],
   ["JIRA", "Figma", "Google Analytics", "Mixpanel"]⟩

/-- Skills of the `devops engineer` taxonomy entry. -/
def devopsEngineerSkills : RoleSkills :=
  ⟨["Docker", "Kubernetes", "AWS", "CI/CD", "Linux"],
   ["Terraform", "Ansible", "Monitoring", "Security"],
   ["Git", "Jenkins", "Prometheus", "Grafana"]⟩

/-- Skills of the `backend engineer` taxonomy entry. -/
def backendEngineerSkills : RoleSkills :=
  ⟨["Python", "APIs", "Databases", "System Design"],
   ["Microservices", "Caching", "Message Queues", "Security"],
   ["Docker", "Git", "PostgreSQL", "Redis"]⟩

/-- Skills of the `frontend engineer` taxonomy entry. -/
def frontendEngineerSkills : RoleSkills :=
  ⟨["JavaScript", "React", "HTML", "CSS", "TypeScript"],
   ["Next.js", "Vue.js", "State Management", "Testing"],
   ["Git", "Webpack", "npm", "Figma"]⟩

/-- `ROLE_SKILL_MAPPING` in its source (insertion) order, the order
`Object.entries` iterates it. -/
def ROLE_SKILL_MAPPING : List (String × RoleSkills) :=
  [("data scientist", dataScientistSkills),
   ("ml engineer", mlEngineerSkills),
   ("data engineer", dataEngineerSkills),
   ("data analyst", dataAnalystSkills),
   ("ai researcher", aiResearcherSkills),
   ("software engineer", softwareEngineerSkills),
   ("product manager", productManagerSkills),
   ("devops engineer", devopsEngineerSkills),
   ("backend engineer", backendEngineerSkills),
   ("frontend engineer", frontendEngineerSkills)]

/-- The `for (const [role, skills] of Object.entries(ROLE_SKILL_MAPPING))`
loop of `getRecommendedSkills`: first key contained in the lowercased title
wins. -/
def matchRoles : List (String × RoleSkills) → String → Option RoleSkills
  | [], _ => none
  | (role, skills) :: rest, titleLower =>
      if containsStr titleLower role then some skills else matchRoles rest titleLower

/-- The partial-match cascade of `getRecommendedSkills`, in source order. -/
def cascadeSkills (titleLower : String) : RoleSkills :=
  if containsStr titleLower "scientist" then dataScientistSkills
  else if containsStr titleLower "engineer" && containsStr titleLower "ml" then
    mlEngineerSkills
  else if containsStr titleLower "engineer" &&
      (containsStr titleLower "data" || containsStr titleLower "etl") then
    dataEngineerSkills
  else if containsStr titleLower "analyst" then dataAnalystSkills
  else if containsStr titleLower "research" then aiResearcherSkills
  else if containsStr titleLower "devops" || containsStr titleLower "sre" then
    devopsEngineerSkills
  else if containsStr titleLower "product" then productManagerSkills
  else if containsStr titleLower "backend" then backendEngineerSkills
  else if containsStr titleLower "frontend" || containsStr titleLower "react" ||
      containsStr titleLower "ui" then
    frontendEngineerSkills
  else if containsStr titleLower "engineer" then softwareEngineerSkills
  else noSkills

/-- `getRecommendedSkills` from the prediction form. -/
def getRecommendedSkills (jobTitle : String) : RoleSkills :=
  if jobTitle = "" then noSkills
  else
    match matchRoles ROLE_SKILL_MAPPING (lowerStr jobTitle) with
    | some skills => skills
    | none => cascadeSkills (lowerStr jobTitle)

/-- Specification model: the cascade of heuristic substring checks as an
ordered list of (predicate, result) pairs. -/
def cascadePatternTable : List ((String → Bool) × RoleSkills) :=
  [(fun t => containsStr t "scientist", dataScientistSkills),
   (fun t => containsStr t "engineer" && containsStr t "ml", mlEngineerSkills),
   (fun t => containsStr t "engineer" && (containsStr t "data" || containsStr t "etl"),
     dataEngineerSkills),
   (fun t => containsStr t "analyst", dataAnalystSkills),
   (fun t => containsStr t "research", aiResearcherSkills),
   (fun t => containsStr t "devops" || containsStr t "sre", devopsEngineerSkills),
   (fun t => containsStr t "product", productManagerSkills),
   (fun t => containsStr t "backend", backendEngineerSkills),
   (fun t => containsStr t "frontend" || containsStr t "react" || containsStr t "ui",
     frontendEngineerSkills),
   (fun t => containsStr t "engineer", softwareEngineerSkills)]

/-- Specification model: the whole recommender as one ordered list of
(predicate, result) pairs — exact taxonomy-key containment checks in the
taxonomy's iteration order, followed by the heuristic cascade. -/
def skillPatternTable : List ((String → Bool) × RoleSkills) :=
  (ROLE_SKILL_MAPPING.map fun e => ((fun t => containsStr t e.1), e.2)) ++
    cascadePatternTable

/-- Specification model: first matching pattern wins; if nothing matches,
three empty sequences. -/
def firstMatch : List ((String → Bool) × RoleSkills) → String → RoleSkills
  | [], _ => noSkills
  | (p, skills) :: rest, t => if p t then skills else firstMatch rest t

/-- Specification model: recommended skills as first-match over the
ordered pattern table applied to the lowercased title. -/
def recommendedSkillsSpec (jobTitle : String) : RoleSkills :=
  firstMatch skillPatternTable (lowerStr jobTitle)

/-! ### Prediction result data model (`lib/types.ts`) -/

/-- The `confidenceInterval` object of a prediction result. -/
structure ConfidenceInterval where
  lower : ℚ
  upper : ℚ
deriving DecidableEq

/-- One entry of the `factors` list of a prediction result. -/
structure SalaryFactor where
  name : String
  impact : ℚ
  description : String
deriving DecidableEq

/-- Prediction metadata; each field may be absent at runtime. -/
structure PredictionMetadata where
  model_version : Option String
  model_type : Option String
  model_accuracy : Option ℚ
  prediction_timestamp : Option String
  features_processed : Option ℚ
deriving DecidableEq

/-- A prediction result as consumed by the result presenter; every field may
be absent at runtime (the presenter is defensive about each one). -/
structure PredictionResult where
  predictedSalary : Option ℚ
  confidenceInterval : Option ConfidenceInterval
  similarJobs : Option ℚ
  marketPosition : Option String
  factors : Option (List SalaryFactor)
  metadata : Option PredictionMetadata
deriving DecidableEq

/-! ### Result presenter (`PredictionResults`) -/

/-- Return value of `getPredictionPrecision`; the `margin` field is only set
on the non-default path. -/
structure PrecisionInfo where
  percentage : ℤ
  range : ℚ
  margin : Option ℤ
deriving DecidableEq

/-- `getModelConfidence` from the results component: the model accuracy (with
the falsy-default `0.7336`) times 100, rounded. -/
def getModelConfidence (result : PredictionResult) : ℤ :=
  jsRound (jsOrQ (result.metadata.bind fun m => m.model_accuracy) 0.7336 * 100)

/-- `getPredictionPrecision` from the results component. The source guard is
`!upper || !lower || !predictedSalary || predictedSalary === 0`, after the
defensive defaults `confidenceInterval || {lower: 0, upper: 0}` and
`predictedSalary || 0`. -/
def getPredictionPrecision (result : PredictionResult) : PrecisionInfo :=
  let confidenceInterval := result.confidenceInterval.getD ⟨0, 0⟩
  let predictedSalary := result.predictedSalary.getD 0
  if confidenceInterval.upper = 0 ∨ confidenceInterval.lower = 0 ∨ predictedSalary = 0 then
    { percentage := 85, range := predictedSalary * 0.3, margin := none }
  else
    { percentage :=
        max 60 (min 95 (jsRound
          ((1 - (confidenceInterval.upper - confidenceInterval.lower) / predictedSalary)
            * 100)))
      range := confidenceInterval.upper - confidenceInterval.lower
      margin := some (jsRound ((confidenceInterval.upper - confidenceInterval.lower) / 2)) }

/-- A result whose confidence interval is present but has a zero lower bound. -/
def zeroLowerResult : PredictionResult :=
  { predictedSalary := some 125000
    confidenceInterval := some ⟨0, 140000⟩
    similarJobs := none
    marketPosition := none
    factors := none
    metadata := none }

/-- The worked example of the spec: salary 125000, interval [110000, 140000]. -/
def sampleResult125 : PredictionResult :=
  { predictedSalary := some 125000
    confidenceInterval := some ⟨110000, 140000⟩
    similarJobs := none
    marketPosition := none
    factors := none
    metadata := none }

/-- A result whose metadata carries a model accuracy of exactly `0` and which
has no confidence interval. -/
def zeroAccuracyResult : PredictionResult :=
  { predictedSalary := some 100000
    confidenceInterval := none
    similarJobs := none
    marketPosition := none
    factors := none
    metadata := some ⟨none, none, some 0, none, none⟩ }

/-! ### The POST handler of `app/api/predict/route.ts` -/

/-- Reply of the Next.js prediction API route. -/
inductive RouteReply where
  | success (data : PredictionResult)
  | failure (error message : String) (status : Nat)
deriving DecidableEq

/-- Outcome of the route's fetch to the Flask backend: a 2xx body with data,
a non-2xx body with optional `error`/`message` fields, or a thrown
network-level error. -/
inductive BackendFetchResult where
  | ok (data : PredictionResult)
  | httpError (status : Nat) (errorField messageField : Option String)
  | unreachable
deriving DecidableEq

/-- The fallback result hard-coded in the catch branch of the POST route. -/
def mockPredictionResult : PredictionResult :=
  { predictedSalary := some 115000
    confidenceInterval := some ⟨92481, 137519⟩
    similarJobs := some 347
    marketPosition := some "Average"
    factors := some [⟨"Service Unavailable", 0,
      "Using fallback prediction - Flask backend not available"⟩]
    metadata := none }

/-- The `POST` handler of `app/api/predict/route.ts`, as a function of the
outcome of its fetch to the backend. -/
def predictRoutePOST : BackendFetchResult → RouteReply
  | .ok data => .success data
  | .httpError status e m =>
      .failure (jsOrStr e "Prediction failed") (jsOrStr m "Unknown error occurred") status
  | .unreachable => .success mockPredictionResult

/-! ### Form validator (`PredictionForm`) -/

/-- The draft state validated on submit: `formData` plus the selected skill
and benefit lists. -/
structure FormDraft where
  jobTitle : String
  yearsExperience : Int
  companyLocation : String
  companySize : String
  remoteRatio : Int
  selectedSkills : List String
  selectedBenefits : List String
  jobDescription : String

/-- `validateForm` from the prediction form, as the association list of
`(field, message)` entries it collects in `newErrors`. -/
def validateForm (d : FormDraft) : List (String × String) :=
  (if jsTrim d.jobTitle = "" then [("jobTitle", "Job title is required")]
   else if d.jobTitle.length < jobTitleMinLength then
     [("jobTitle", "Job title must be at least 2 characters")]
   else if d.jobTitle.length > jobTitleMaxLength then
     [("jobTitle", "Job title cannot exceed 200 characters")]
   else []) ++
  (if d.yearsExperience < yearsExperienceMin then
     [("yearsExperience", "Years of experience cannot be negative")]
   else if d.yearsExperience > yearsExperienceMax then
     [("yearsExperience", "Years of experience cannot exceed 50")]
   else []) ++
  (if d.selectedSkills.length > requiredSkillsMaxItems then
     [("requiredSkills", "Cannot select more than 20 skills")]
   else []) ++
  (if d.selectedBenefits.length > benefitsMaxItems then
     [("benefits", "Cannot select more than 15 benefits")]
   else []) ++
  (if d.jobDescription ≠ "" ∧ d.jobDescription.length > jobDescriptionMaxLength then
     [("jobDescription", "Job description cannot exceed 10000 characters")]
   else [])

/-- A draft passes every check of `validateForm`. -/
def draftValid (d : FormDraft) : Prop :=
  jsTrim d.jobTitle ≠ "" ∧ jobTitleMinLength ≤ d.jobTitle.length ∧
  d.jobTitle.length ≤ jobTitleMaxLength ∧
  yearsExperienceMin ≤ d.yearsExperience ∧ d.yearsExperience ≤ yearsExperienceMax ∧
  d.selectedSkills.length ≤ requiredSkillsMaxItems ∧
  d.selectedBenefits.length ≤ benefitsMaxItems ∧
  d.jobDescription.length ≤ jobDescriptionMaxLength

/-- A draft whose fields other than the job title are all valid. -/
def draftWithTitle (t : String) : FormDraft :=
  { jobTitle := t
    yearsExperience := 5
    companyLocation := "United States"
    companySize := "Medium"
    remoteRatio := 0
    selectedSkills := ["Python"]
    selectedBenefits := []
    jobDescription := "" }

/-- A 200-character job title consisting only of spaces. -/
def allSpacesTitle : String := ⟨List.replicate 200 ' '⟩

/-! ### Prediction client (`handlePrediction` on the predict page) -/

/-- The parsed JSON body of a prediction response: the optional `status`,
`data` and `message` fields the client inspects. -/
structure PredictBody where
  status : Option String
  data : Option PredictionResult
  message : Option String
deriving DecidableEq

/-- The response the client sees: HTTP success flag, status code and text,
optional content type, and parsed body. -/
structure ClientResponse where
  ok : Bool
  status : Nat
  statusText : String
  contentType : Option String
  body : PredictBody
deriving DecidableEq

/-- What the response handling of `handlePrediction` does: store the wrapped
payload, store the body directly, or throw an error message. -/
inductive HandleOutcome where
  | accepted (r : PredictionResult)
  | acceptedDirect (b : PredictBody)
  | thrown (msg : String)
deriving DecidableEq

/-- The content-type guard of `handlePrediction`:
`!contentType || !contentType.includes('application/json')`. -/
def contentTypeNotJson : Option String → Bool
  | none => true
  | some ct => !(containsStr ct "application/json")

/-- The response handling of `handlePrediction` on the predict page
(`if (!response.ok) ... contentType check ... status-field dispatch`). -/
def handlePrediction (resp : ClientResponse) : HandleOutcome :=
  if !resp.ok then
    .thrown ("Backend error: " ++ toString resp.status ++ " " ++ resp.statusText)
  else if contentTypeNotJson resp.contentType then
    .thrown "Backend returned non-JSON response"
  else
    match resp.body.status, resp.body.data with
    | some "success", some d => .accepted d
    | some "error", _ => .thrown (jsOrStr resp.body.message "Prediction failed")
    | _, _ => .acceptedDirect resp.body

/-- A failing HTTP response whose body carries a service message. -/
def badStatusResp : ClientResponse :=
  { ok := false
    status := 400
    statusText := "Bad Request"
    contentType := some "application/json"
    body := { status := some "error", data := none, message := some "quota exceeded" } }

/-- A successful wrapped response carrying a payload. -/
def okStatusResp : ClientResponse :=
  { ok := true
    status := 200
    statusText := "OK"
    contentType := some "application/json"
    body := { status := some "success", data := some sampleResult125, message := none } }

/-! ### Analytics data-sufficiency classifier (`app/analytics/page.tsx`) -/

/-- The metadata of an analytics response. -/
structure AnalyticsMetadata where
  totalRecords : Nat
  filteredRecords : Nat
deriving DecidableEq

/-- The analytics payload held in the dashboard state. -/
structure AnalyticsData where
  metadata : AnalyticsMetadata
deriving DecidableEq

/-- `hasMinimumData`: false while no data is loaded, otherwise
`filteredRecords >= 10`. -/
def hasMinimumData (data : Option AnalyticsData) : Bool :=
  match data with
  | none => false
  | some d => decide (d.metadata.filteredRecords ≥ 10)

/-- `hasNoData`: true while no data is loaded, otherwise
`filteredRecords === 0`. -/
def hasNoData (data : Option AnalyticsData) : Bool :=
  match data with
  | none => true
  | some d => decide (d.metadata.filteredRecords = 0)

/-- `hasInsufficientData`: false while no data is loaded, otherwise
`0 < filteredRecords < 10`. -/
def hasInsufficientData (data : Option AnalyticsData) : Bool :=
  match data with
  | none => false
  | some d =>
      decide (0 < d.metadata.filteredRecords ∧ d.metadata.filteredRecords < 10)

/-- What the overview tab renders. -/
inductive OverviewView where
  | empty
  | noDataState
  | insufficientDataState
  | charts
deriving DecidableEq

/-- The branch structure of `OverviewTab`: null without data, then the
no-data state, then the insufficient-data state, then the full chart set. -/
def OverviewTab (data : Option AnalyticsData) : OverviewView :=
  if data.isNone then .empty
  else if hasNoData data then .noDataState
  else if hasInsufficientData data then .insufficientDataState
  else .charts

/-! ### Skill-selection state operations (`PredictionForm`) -/

/-- `toggleSkill`: remove a selected skill, or append it while the list is
below the maximum. -/
def toggleSkill (skill : String) (prev : List String) : List String :=
  if prev.contains skill then prev.filter (fun s => !(s == skill))
  else if prev.length < requiredSkillsMaxItems then prev ++ [skill]
  else prev

/-- `addCustomSkill`: append the trimmed custom skill when it is nonempty,
not already selected, and the list is below the maximum. -/
def addCustomSkill (customSkill : String) (prev : List String) : List String :=
  let skill := jsTrim customSkill
  if skill ≠ "" ∧ ¬prev.contains skill ∧ prev.length < requiredSkillsMaxItems then
    prev ++ [skill]
  else prev

/-- The auto-populate effect: when a job title is set, no skills are selected
yet, and the title has recommended core skills, select the first four core
skills. -/
def autoSelectCoreSkills (jobTitle : String) (prev : List String) : List String :=
  if jobTitle ≠ "" ∧ prev.length = 0 ∧ 0 < (getRecommendedSkills jobTitle).core.length then
    (getRecommendedSkills jobTitle).core.take 4
  else prev

/-- The invariant of the selected-skills list: no duplicates and at most
`VALIDATION_RULES.requiredSkills.maxItems` entries. -/
def skillsInvariant (l : List String) : Prop :=
  l.Nodup ∧ l.length ≤ requiredSkillsMaxItems

/-! ### Theorems -/

/-- Claim C1: for every `yearsExperience` in `[0, 50]`,
`getExperienceLevelFromYears` returns exactly one of the four experience
tiers according to the closed integer boundaries `[0,2] → Entry Level`,
`[3,5] → Mid Level`, `[6,10] → Senior Level`, `[11,50] → Executive`,
including at the boundary values 2, 3, 5, 6, 10 and 11. -/
theorem experience_tiers_correct :
    (∀ years : Int, 0 ≤ years → years ≤ 50 →
      (getExperienceLevelFromYears years ∈
        ["Entry Level", "Mid Level", "Senior Level", "Executive"]) ∧
      (years ≤ 2 → getExperienceLevelFromYears years = "Entry Level") ∧
      (3 ≤ years → years ≤ 5 → getExperienceLevelFromYears years = "Mid Level") ∧
      (6 ≤ years → years ≤ 10 → getExperienceLevelFromYears years = "Senior Level") ∧
      (11 ≤ years → getExperienceLevelFromYears years = "Executive")) ∧
    getExperienceLevelFromYears 2 = "Entry Level" ∧
    getExperienceLevelFromYears 3 = "Mid Level" ∧
    getExperienceLevelFromYears 5 = "Mid Level" ∧
    getExperienceLevelFromYears 6 = "Senior Level" ∧
    getExperienceLevelFromYears 10 = "Senior Level" ∧
    getExperienceLevelFromYears 11 = "Executive" := by
  refine ⟨fun years h0 h50 => ?_, by decide, by decide, by decide, by decide, by decide, by decide⟩
  unfold getExperienceLevelFromYears
  refine ⟨?_, ?_, ?_, ?_, ?_⟩ <;> split_ifs <;> simp_all <;> omega

/-- Witness for C1 at the boundary value 2. -/
theorem experience_tiers_correct_witness :
    getExperienceLevelFromYears 2 = "Entry Level" :=
  (experience_tiers_correct.1 2 (by decide) (by decide)).2.1 (by decide)

/-- Claim C2: when the fetch to the backend throws, the prediction API route
returns the degraded-mode result with `predictedSalary = 115000`,
`confidenceInterval = {lower := 92481, upper := 137519}` and a factors list
containing exactly one entry named "Service Unavailable" with impact 0,
instead of propagating the error as a failure. -/
theorem route_network_failure_fallback :
    predictRoutePOST .unreachable = .success mockPredictionResult ∧
    mockPredictionResult.predictedSalary = some 115000 ∧
    mockPredictionResult.confidenceInterval = some ⟨92481, 137519⟩ ∧
    (mockPredictionResult.factors.getD []).map (fun f => (f.name, f.impact)) =
      [("Service Unavailable", (0 : ℚ))] :=
  ⟨rfl, rfl, rfl, rfl⟩

/-- First-match over the mapped taxonomy entries followed by any tail agrees
with the source's `Object.entries` loop with the tail as fallback. -/
theorem firstMatch_map_append (entries : List (String × RoleSkills))
    (rest : List ((String → Bool) × RoleSkills)) (t : String) :
    firstMatch ((entries.map fun e => ((fun s => containsStr s e.1), e.2)) ++ rest) t =
      (match matchRoles entries t with
       | some skills => skills
       | none => firstMatch rest t) := by
  induction entries with
  | nil => simp [matchRoles]
  | cons e es ih =>
      obtain ⟨role, skills⟩ := e
      simp only [List.map, List.cons_append, firstMatch, matchRoles]
      by_cases h : containsStr t role
      · simp [h]
      · simp [h, ih]

/-- The source's partial-match cascade agrees with the spec-model cascade
pattern table. -/
theorem firstMatch_cascade (t : String) :
    firstMatch cascadePatternTable t = cascadeSkills t := by
  simp only [cascadePatternTable, firstMatch, cascadeSkills]

/-- Claim C3: for every job title, `getRecommendedSkills` returns the skill
set of the first taxonomy key contained in the lowercased title in the
taxonomy's iteration order, then falls through the fixed cascade of substring
checks, and otherwise returns three empty sequences — i.e. it coincides with
the spec's ordered first-match pattern table; in particular on
"Senior ML Engineer" the core skills are exactly Python, Machine Learning,
TensorFlow, PyTorch, Docker. -/
theorem recommended_skills_correct :
    (∀ jobTitle : String, getRecommendedSkills jobTitle = recommendedSkillsSpec jobTitle) ∧
    (getRecommendedSkills "Senior ML Engineer").core =
      ["Python", "Machine Learning", "TensorFlow", "PyTorch", "Docker"] := by
  constructor
  · intro jobTitle
    by_cases h : jobTitle = ""
    · subst h
      rfl
    · rw [getRecommendedSkills, if_neg h, recommendedSkillsSpec, skillPatternTable,
        firstMatch_map_append]
      cases matchRoles ROLE_SKILL_MAPPING (lowerStr jobTitle) with
      | some skills => rfl
      | none => exact (firstMatch_cascade (lowerStr jobTitle)).symm
  · rfl

/-- Counterexample for claim C4: a present confidence interval with a zero
lower bound and nonzero predicted salary takes the default path, so the
claimed formulas (margin 70000, precision 60 at this input) do not hold. -/
theorem precision_formula_counterexample :
    (getPredictionPrecision zeroLowerResult).percentage = 85 ∧
    (getPredictionPrecision zeroLowerResult).margin = none ∧
    ¬((getPredictionPrecision zeroLowerResult).margin =
        some (jsRound (((140000 : ℚ) - 0) / 2)) ∧
      (getPredictionPrecision zeroLowerResult).percentage =
        max 60 (min 95 (jsRound ((1 - ((140000 : ℚ) - 0) / 125000) * 100)))) := by
  refine ⟨by decide, by decide, ?_⟩
  intro h
  exact absurd h.1 (by decide)

/-- Evaluation rule for `jsRound`: it equals `z` when `q + 1/2` lies in
`[z, z + 1)`. -/
theorem jsRound_eq (q : ℚ) (z : ℤ) (h1 : (z : ℚ) ≤ q + 1/2) (h2 : q + 1/2 < z + 1) :
    jsRound q = z := by
  rw [jsRound]
  exact Int.floor_eq_iff.mpr ⟨h1, h2⟩

/-- The non-default path of `getPredictionPrecision`: with both interval
bounds and the predicted salary nonzero, margin and percentage follow the
interval-width formulas. -/
theorem getPredictionPrecision_nondefault (r : PredictionResult) (l u ps : ℚ)
    (hci : r.confidenceInterval = some ⟨l, u⟩) (hps : r.predictedSalary = some ps)
    (hl : l ≠ 0) (hu : u ≠ 0) (hps0 : ps ≠ 0) :
    (getPredictionPrecision r).margin = some (jsRound ((u - l) / 2)) ∧
    (getPredictionPrecision r).percentage =
      max 60 (min 95 (jsRound ((1 - (u - l) / ps) * 100))) := by
  simp only [getPredictionPrecision, hci, hps, Option.getD_some]
  rw [if_neg (by push_neg; exact ⟨hu, hl, hps0⟩)]
  exact ⟨rfl, rfl⟩

/-- Claim C4 (amended: both interval bounds nonzero): for every result with a
present confidence interval whose bounds are both nonzero and a nonzero
predicted salary, margin of error is round((upper − lower)/2) and prediction
precision is clamp(round((1 − (upper−lower)/predictedSalary) × 100), 60, 95);
at salary 125000 and interval [110000, 140000] this is 15000 and 76. -/
theorem precision_formula_amended :
    (∀ (r : PredictionResult) (l u ps : ℚ),
      r.confidenceInterval = some ⟨l, u⟩ → r.predictedSalary = some ps →
      l ≠ 0 → u ≠ 0 → ps ≠ 0 →
      (getPredictionPrecision r).margin = some (jsRound ((u - l) / 2)) ∧
      (getPredictionPrecision r).percentage =
        max 60 (min 95 (jsRound ((1 - (u - l) / ps) * 100)))) ∧
    (getPredictionPrecision sampleResult125).margin = some 15000 ∧
    (getPredictionPrecision sampleResult125).percentage = 76 := by
  have h := getPredictionPrecision_nondefault sampleResult125 110000 140000 125000
    rfl rfl (by norm_num) (by norm_num) (by norm_num)
  refine ⟨fun r l u ps hci hps hl hu hps0 =>
    getPredictionPrecision_nondefault r l u ps hci hps hl hu hps0, ?_, ?_⟩
  · rw [h.1]
    exact congrArg some (jsRound_eq (((140000 : ℚ) - 110000) / 2) 15000
      (by norm_num) (by norm_num))
  · rw [h.2, jsRound_eq ((1 - ((140000 : ℚ) - 110000) / 125000) * 100) 76
      (by norm_num) (by norm_num)]
    norm_num

/-- Witness for the amended C4 at the spec's worked example. -/
theorem precision_formula_amended_witness :
    (getPredictionPrecision sampleResult125).margin =
      some (jsRound (((140000 : ℚ) - 110000) / 2)) ∧
    (getPredictionPrecision sampleResult125).percentage =
      max 60 (min 95 (jsRound ((1 - ((140000 : ℚ) - 110000) / 125000) * 100))) :=
  precision_formula_amended.1 sampleResult125 110000 140000 125000 rfl rfl
    (by norm_num) (by norm_num) (by norm_num)

/-- Counterexample for claim C5: with model accuracy exactly 0 the displayed
model confidence is 73, not 73.36, and on the default precision path there is
no margin value equal to 30% of the predicted salary. -/
theorem fallback_constants_counterexample :
    getModelConfidence zeroAccuracyResult = 73 ∧
    ((getModelConfidence zeroAccuracyResult : ℚ) ≠ 73.36) ∧
    (getPredictionPrecision zeroAccuracyResult).margin = none ∧
    (getPredictionPrecision zeroAccuracyResult).margin ≠
      some (jsRound ((100000 : ℚ) * 0.3)) := by
  have h : getModelConfidence zeroAccuracyResult = 73 := by
    rw [getModelConfidence]
    have hd : jsOrQ (zeroAccuracyResult.metadata.bind fun m => m.model_accuracy) 0.7336
        = 0.7336 := by
      simp [zeroAccuracyResult, jsOrQ]
    rw [hd]
    exact jsRound_eq (0.7336 * 100) 73 (by norm_num) (by norm_num)
  refine ⟨h, ?_, by decide, by decide⟩
  rw [h]
  norm_num

/-- Claim C5 (amended): when the metadata model accuracy is absent or zero
the default constant 0.7336 applies and the displayed model confidence is
round(73.36) = 73; when a confidence-interval bound or the predicted salary
is absent or zero, prediction precision defaults to percentage 85 with an
uncertainty range of 30% of the predicted salary and no margin value. -/
theorem fallback_constants_amended :
    (∀ r : PredictionResult,
      (r.metadata.bind fun m => m.model_accuracy) = none ∨
        (r.metadata.bind fun m => m.model_accuracy) = some 0 →
      getModelConfidence r = 73) ∧
    (∀ r : PredictionResult,
      (r.confidenceInterval.getD ⟨0, 0⟩).upper = 0 ∨
        (r.confidenceInterval.getD ⟨0, 0⟩).lower = 0 ∨ r.predictedSalary.getD 0 = 0 →
      getPredictionPrecision r =
        { percentage := 85, range := r.predictedSalary.getD 0 * 0.3, margin := none }) := by
  constructor
  · intro r h
    have hd : jsOrQ (r.metadata.bind fun m => m.model_accuracy) 0.7336 = 0.7336 := by
      rcases h with h | h <;> simp [jsOrQ, h]
    rw [getModelConfidence, hd]
    exact jsRound_eq (0.7336 * 100) 73 (by norm_num) (by norm_num)
  · intro r h
    simp only [getPredictionPrecision]
    rw [if_pos h]

/-- Witness for the amended C5 at a result with zero accuracy and absent
confidence interval. -/
theorem fallback_constants_amended_witness :
    getModelConfidence zeroAccuracyResult = 73 ∧
    getPredictionPrecision zeroAccuracyResult =
      { percentage := 85, range := (100000 : ℚ) * 0.3, margin := none } :=
  ⟨fallback_constants_amended.1 zeroAccuracyResult (Or.inr rfl),
   fallback_constants_amended.2 zeroAccuracyResult (Or.inl rfl)⟩

/-- Counterexample for claim C6: a job title of exactly 200 characters that
is entirely whitespace trims to the empty string, so `validateForm` reports
"Job title is required" instead of returning an empty mapping. -/
theorem validate_form_counterexample :
    (draftWithTitle allSpacesTitle).jobTitle.length = 200 ∧
    validateForm (draftWithTitle allSpacesTitle) =
      [("jobTitle", "Job title is required")] := by
  exact ⟨rfl, rfl⟩

/-- Claim C6 (amended: the 200-character title must contain a non-whitespace
character): `validateForm` returns an entry per violated field constraint and
an empty mapping exactly when the draft is valid; an empty and a
201-character job title are each reported under the key "jobTitle", a
200-character title that does not trim to the empty string (other fields
valid) yields an empty mapping, and negative versus above-maximum years of
experience produce distinct messages. -/
theorem validate_form_amended :
    (∀ d : FormDraft, d.jobTitle = "" →
      "jobTitle" ∈ (validateForm d).map Prod.fst) ∧
    (∀ d : FormDraft, d.jobTitle.length = 201 →
      "jobTitle" ∈ (validateForm d).map Prod.fst) ∧
    (∀ d : FormDraft, d.jobTitle.length = 200 → jsTrim d.jobTitle ≠ "" →
      yearsExperienceMin ≤ d.yearsExperience → d.yearsExperience ≤ yearsExperienceMax →
      d.selectedSkills.length ≤ requiredSkillsMaxItems →
      d.selectedBenefits.length ≤ benefitsMaxItems →
      d.jobDescription.length ≤ jobDescriptionMaxLength →
      validateForm d = []) ∧
    (∀ d : FormDraft, d.yearsExperience < yearsExperienceMin →
      ("yearsExperience", "Years of experience cannot be negative") ∈ validateForm d) ∧
    (∀ d : FormDraft, d.yearsExperience > yearsExperienceMax →
      ("yearsExperience", "Years of experience cannot exceed 50") ∈ validateForm d) ∧
    ("Years of experience cannot be negative" ≠ "Years of experience cannot exceed 50") ∧
    (∀ d : FormDraft, validateForm d = [] ↔ draftValid d) := by
  have hnil : ∀ d : FormDraft, draftValid d → validateForm d = [] := by
    intro d hv
    obtain ⟨h1, h2, h3, h4, h5, h6, h7, h8⟩ := hv
    have h2l : 2 ≤ d.jobTitle.length := h2
    have h3l : d.jobTitle.length ≤ 200 := h3
    have h4l : (0 : Int) ≤ d.yearsExperience := h4
    have h5l : d.yearsExperience ≤ 50 := h5
    have h6l : d.selectedSkills.length ≤ 20 := h6
    have h7l : d.selectedBenefits.length ≤ 15 := h7
    have h8l : d.jobDescription.length ≤ 10000 := h8
    have h2' : ¬(d.jobTitle.length < jobTitleMinLength) := by
      show ¬(d.jobTitle.length < 2)
      omega
    have h3' : ¬(d.jobTitle.length > jobTitleMaxLength) := by
      show ¬(d.jobTitle.length > 200)
      omega
    have h4' : ¬(d.yearsExperience < yearsExperienceMin) := by
      show ¬(d.yearsExperience < 0)
      omega
    have h5' : ¬(d.yearsExperience > yearsExperienceMax) := by
      show ¬(d.yearsExperience > 50)
      omega
    have h6' : ¬(d.selectedSkills.length > requiredSkillsMaxItems) := by
      show ¬(d.selectedSkills.length > 20)
      omega
    have h7' : ¬(d.selectedBenefits.length > benefitsMaxItems) := by
      show ¬(d.selectedBenefits.length > 15)
      omega
    have h8' : ¬(d.jobDescription ≠ "" ∧
        d.jobDescription.length > jobDescriptionMaxLength) := by
      rintro ⟨-, hgt⟩
      have hgtl : d.jobDescription.length > 10000 := hgt
      omega
    rw [validateForm, if_neg h1, if_neg h2', if_neg h3', if_neg h4', if_neg h5',
      if_neg h6', if_neg h7', if_neg h8']
    rfl
  refine ⟨?_, ?_, ?_, ?_, ?_, by decide, ?_⟩
  · intro d h
    have ht : jsTrim d.jobTitle = "" := by rw [h]; rfl
    have hm : ("jobTitle", "Job title is required") ∈
        (if jsTrim d.jobTitle = "" then [("jobTitle", "Job title is required")]
         else if d.jobTitle.length < jobTitleMinLength then
           [("jobTitle", "Job title must be at least 2 characters")]
         else if d.jobTitle.length > jobTitleMaxLength then
           [("jobTitle", "Job title cannot exceed 200 characters")]
         else []) := by
      rw [if_pos ht]
      exact List.mem_singleton.mpr rfl
    simp only [validateForm, List.map_append, List.mem_append]
    exact Or.inl (Or.inl (Or.inl (Or.inl (List.mem_map_of_mem Prod.fst hm))))
  · intro d h
    by_cases ht : jsTrim d.jobTitle = ""
    · have hm : ("jobTitle", "Job title is required") ∈
          (if jsTrim d.jobTitle = "" then [("jobTitle", "Job title is required")]
           else if d.jobTitle.length < jobTitleMinLength then
             [("jobTitle", "Job title must be at least 2 characters")]
           else if d.jobTitle.length > jobTitleMaxLength then
             [("jobTitle", "Job title cannot exceed 200 characters")]
           else []) := by
        rw [if_pos ht]
        exact List.mem_singleton.mpr rfl
      simp only [validateForm, List.map_append, List.mem_append]
      exact Or.inl (Or.inl (Or.inl (Or.inl (List.mem_map_of_mem Prod.fst hm))))
    · have h2' : ¬(d.jobTitle.length < jobTitleMinLength) := by
        show ¬(d.jobTitle.length < 2)
        omega
      have h3' : d.jobTitle.length > jobTitleMaxLength := by
        show d.jobTitle.length > 200
        omega
      have hm : ("jobTitle", "Job title cannot exceed 200 characters") ∈
          (if jsTrim d.jobTitle = "" then [("jobTitle", "Job title is required")]
           else if d.jobTitle.length < jobTitleMinLength then
             [("jobTitle", "Job title must be at least 2 characters")]
           else if d.jobTitle.length > jobTitleMaxLength then
             [("jobTitle", "Job title cannot exceed 200 characters")]
           else []) := by
        rw [if_neg ht, if_neg h2', if_pos h3']
        exact List.mem_singleton.mpr rfl
      simp only [validateForm, List.map_append, List.mem_append]
      exact Or.inl (Or.inl (Or.inl (Or.inl (List.mem_map_of_mem Prod.fst hm))))
  · intro d h200 ht h0 h50 hsk hbn hds
    refine hnil d ⟨ht, ?_, ?_, h0, h50, hsk, hbn, hds⟩
    · show 2 ≤ d.jobTitle.length
      omega
    · show d.jobTitle.length ≤ 200
      omega
  · intro d h
    have hm : ("yearsExperience", "Years of experience cannot be negative") ∈
        (if d.yearsExperience < yearsExperienceMin then
           [("yearsExperience", "Years of experience cannot be negative")]
         else if d.yearsExperience > yearsExperienceMax then
           [("yearsExperience", "Years of experience cannot exceed 50")]
         else []) := by
      rw [if_pos h]
      exact List.mem_singleton.mpr rfl
    simp only [validateForm, List.mem_append]
    tauto
  · intro d h
    have hl : d.yearsExperience > 50 := h
    have h' : ¬(d.yearsExperience < yearsExperienceMin) := by
      show ¬(d.yearsExperience < 0)
      omega
    have hm : ("yearsExperience", "Years of experience cannot exceed 50") ∈
        (if d.yearsExperience < yearsExperienceMin then
           [("yearsExperience", "Years of experience cannot be negative")]
         else if d.yearsExperience > yearsExperienceMax then
           [("yearsExperience", "Years of experience cannot exceed 50")]
         else []) := by
      rw [if_neg h', if_pos h]
      exact List.mem_singleton.mpr rfl
    simp only [validateForm, List.mem_append]
    tauto
  · intro d
    constructor
    · intro h
      rw [validateForm] at h
      simp only [List.append_eq_nil] at h
      obtain ⟨hA, hB, hC, hD, hE⟩ :
          (if jsTrim d.jobTitle = "" then [("jobTitle", "Job title is required")]
           else if d.jobTitle.length < jobTitleMinLength then
             [("jobTitle", "Job title must be at least 2 characters")]
           else if d.jobTitle.length > jobTitleMaxLength then
             [("jobTitle", "Job title cannot exceed 200 characters")]
           else []) = [] ∧
          (if d.yearsExperience < yearsExperienceMin then
             [("yearsExperience", "Years of experience cannot be negative")]
           else if d.yearsExperience > yearsExperienceMax then
             [("yearsExperience", "Years of experience cannot exceed 50")]
           else []) = [] ∧
          (if d.selectedSkills.length > requiredSkillsMaxItems then
             [("requiredSkills", "Cannot select more than 20 skills")]
           else []) = [] ∧
          (if d.selectedBenefits.length > benefitsMaxItems then
             [("benefits", "Cannot select more than 15 benefits")]
           else []) = [] ∧
          (if d.jobDescription ≠ "" ∧
              d.jobDescription.length > jobDescriptionMaxLength then
             [("jobDescription", "Job description cannot exceed 10000 characters")]
           else []) = [] := by
        tauto
      have c1 : ¬(jsTrim d.jobTitle = "") := by
        intro hc
        rw [if_pos hc] at hA
        exact absurd hA (by simp)
      have c2 : ¬(d.jobTitle.length < jobTitleMinLength) := by
        intro hc
        rw [if_neg c1, if_pos hc] at hA
        exact absurd hA (by simp)
      have c3 : ¬(d.jobTitle.length > jobTitleMaxLength) := by
        intro hc
        rw [if_neg c1, if_neg c2, if_pos hc] at hA
        exact absurd hA (by simp)
      have c4 : ¬(d.yearsExperience < yearsExperienceMin) := by
        intro hc
        rw [if_pos hc] at hB
        exact absurd hB (by simp)
      have c5 : ¬(d.yearsExperience > yearsExperienceMax) := by
        intro hc
        rw [if_neg c4, if_pos hc] at hB
        exact absurd hB (by simp)
      have c6 : ¬(d.selectedSkills.length > requiredSkillsMaxItems) := by
        intro hc
        rw [if_pos hc] at hC
        exact absurd hC (by simp)
      have c7 : ¬(d.selectedBenefits.length > benefitsMaxItems) := by
        intro hc
        rw [if_pos hc] at hD
        exact absurd hD (by simp)
      have c8 : d.jobDescription.length ≤ jobDescriptionMaxLength := by
        by_cases hde : d.jobDescription = ""
        · rw [hde]
          decide
        · by_contra hc
          have hcl : ¬(d.jobDescription.length ≤ 10000) := hc
          rw [if_pos ⟨hde, by show d.jobDescription.length > 10000; omega⟩] at hE
          exact absurd hE (by simp)
      exact ⟨c1, not_lt.mp c2, not_lt.mp c3, not_lt.mp c4, not_lt.mp c5,
        not_lt.mp c6, not_lt.mp c7, c8⟩
    · exact hnil d

/-- Witness for the amended C6: an empty job title is reported under the key
"jobTitle". -/
theorem validate_form_amended_witness :
    "jobTitle" ∈ (validateForm (draftWithTitle "")).map Prod.fst :=
  validate_form_amended.1 (draftWithTitle "") rfl

/-- Claim C9: the validator only ever reports the five validated fields;
`companyLocation`, `companySize` and `remoteRatio` never appear among the
error keys. -/
theorem validate_form_fields_only :
    ∀ d : FormDraft, ∀ e ∈ validateForm d,
      e.1 ∈ ["jobTitle", "yearsExperience", "requiredSkills", "benefits",
             "jobDescription"] := by
  intro d e he
  rw [validateForm] at he
  simp only [List.mem_append] at he
  rcases he with ((((h | h) | h) | h) | h) <;>
    · repeat' split at h
      all_goals simp_all

/-- Witness for C9 at a draft with an empty job title. -/
theorem validate_form_fields_only_witness :
    (("jobTitle", "Job title is required") : String × String).1 ∈
      ["jobTitle", "yearsExperience", "requiredSkills", "benefits",
       "jobDescription"] :=
  validate_form_fields_only (draftWithTitle "") ("jobTitle", "Job title is required")
    (by decide)

/-- Counterexample for claim C7: on a non-success HTTP status the thrown
error is built from the status code and status text only; the body's
service-provided message ("quota exceeded") is not carried. -/
theorem client_reply_counterexample :
    handlePrediction badStatusResp = .thrown "Backend error: 400 Bad Request" ∧
    badStatusResp.body.message = some "quota exceeded" ∧
    containsStr "Backend error: 400 Bad Request" "quota exceeded" = false := by
  exact ⟨rfl, rfl, rfl⟩

/-- Claim C7 (amended: the non-success error is built from the HTTP status
code and status text, not the body's message): the client's ordered response
handling — non-success status throws "Backend error: {status} {statusText}";
otherwise a non-JSON content type throws the distinct transport error without
parsing; otherwise status "success" with a data payload yields that payload,
status "error" throws the provided message, and an unrecognized or absent
status with a payload present stores the body directly. -/
theorem client_reply_handling :
    (∀ resp : ClientResponse, resp.ok = false →
      handlePrediction resp =
        .thrown ("Backend error: " ++ toString resp.status ++ " " ++ resp.statusText)) ∧
    (∀ resp : ClientResponse, resp.ok = true →
      contentTypeNotJson resp.contentType = true →
      handlePrediction resp = .thrown "Backend returned non-JSON response") ∧
    (∀ (resp : ClientResponse) (d : PredictionResult), resp.ok = true →
      contentTypeNotJson resp.contentType = false →
      resp.body.status = some "success" → resp.body.data = some d →
      handlePrediction resp = .accepted d) ∧
    (∀ (resp : ClientResponse) (m : String), resp.ok = true →
      contentTypeNotJson resp.contentType = false →
      resp.body.status = some "error" → resp.body.message = some m → m ≠ "" →
      handlePrediction resp = .thrown m) ∧
    (∀ resp : ClientResponse, resp.ok = true →
      contentTypeNotJson resp.contentType = false →
      resp.body.status ≠ some "success" → resp.body.status ≠ some "error" →
      resp.body.data.isSome = true →
      handlePrediction resp = .acceptedDirect resp.body) := by
  refine ⟨?_, ?_, ?_, ?_, ?_⟩
  · intro resp h
    simp [handlePrediction, h]
  · intro resp h hct
    simp [handlePrediction, h, hct]
  · intro resp d h hct hs hd
    simp [handlePrediction, h, hct, hs, hd]
  · intro resp m h hct hs hm hne
    simp [handlePrediction, h, hct, hs, hm, jsOrStr, hne]
  · intro resp h hct hs1 hs2 hd
    simp only [handlePrediction, h, hct, Bool.not_true, Bool.false_eq_true,
      if_false, if_true]
    split
    · simp_all
    · simp_all
    · rfl

/-- Witness for the amended C7 at a successful wrapped response. -/
theorem client_reply_handling_witness :
    handlePrediction okStatusResp = .accepted sampleResult125 :=
  client_reply_handling.2.2.1 okStatusResp sampleResult125 rfl rfl rfl rfl

/-- Classification of a single metadata record by the three sufficiency
flags and the overview tab, as a function of `filteredRecords`. -/
theorem analytics_class_of_records (t fr : Nat) :
    ([hasNoData (some ⟨⟨t, fr⟩⟩), hasInsufficientData (some ⟨⟨t, fr⟩⟩),
      hasMinimumData (some ⟨⟨t, fr⟩⟩)].count true = 1) ∧
    (hasNoData (some ⟨⟨t, fr⟩⟩) = true ↔ fr = 0) ∧
    (hasInsufficientData (some ⟨⟨t, fr⟩⟩) = true ↔ 0 < fr ∧ fr < 10) ∧
    (hasMinimumData (some ⟨⟨t, fr⟩⟩) = true ↔ 10 ≤ fr) ∧
    (OverviewTab (some ⟨⟨t, fr⟩⟩) = .noDataState ↔ fr = 0) ∧
    (OverviewTab (some ⟨⟨t, fr⟩⟩) = .insufficientDataState ↔ 0 < fr ∧ fr < 10) ∧
    (OverviewTab (some ⟨⟨t, fr⟩⟩) = .charts ↔ 10 ≤ fr) := by
  simp only [hasNoData, hasInsufficientData, hasMinimumData, OverviewTab,
    Option.isNone_some]
  by_cases h0 : fr = 0
  · subst h0
    simp
  · by_cases h10 : fr < 10
    · have hpos : 0 < fr := Nat.pos_of_ne_zero h0
      simp [h0, h10, hpos]
    · have hge : 10 ≤ fr := Nat.le_of_not_lt h10
      have hpos : 0 < fr := Nat.pos_of_ne_zero h0
      simp [h0, h10, hge, hpos]

/-- Claim C8: with data loaded, the three data-sufficiency flags classify
every `filteredRecords` count into exactly one state — no-data at 0,
insufficient-data strictly between 0 and 10, sufficient-data from 10 on —
and the overview tab renders accordingly; in particular 9 renders the
insufficient-data state and 10 renders the full chart set. -/
theorem analytics_sufficiency_trichotomy :
    (∀ md : AnalyticsMetadata,
      ([hasNoData (some ⟨md⟩), hasInsufficientData (some ⟨md⟩),
        hasMinimumData (some ⟨md⟩)].count true = 1) ∧
      (hasNoData (some ⟨md⟩) = true ↔ md.filteredRecords = 0) ∧
      (hasInsufficientData (some ⟨md⟩) = true ↔
        0 < md.filteredRecords ∧ md.filteredRecords < 10) ∧
      (hasMinimumData (some ⟨md⟩) = true ↔ 10 ≤ md.filteredRecords) ∧
      (OverviewTab (some ⟨md⟩) = .noDataState ↔ md.filteredRecords = 0) ∧
      (OverviewTab (some ⟨md⟩) = .insufficientDataState ↔
        0 < md.filteredRecords ∧ md.filteredRecords < 10) ∧
      (OverviewTab (some ⟨md⟩) = .charts ↔ 10 ≤ md.filteredRecords)) ∧
    OverviewTab (some ⟨⟨15000, 9⟩⟩) = .insufficientDataState ∧
    OverviewTab (some ⟨⟨15000, 10⟩⟩) = .charts := by
  refine ⟨fun md => ?_, ?_, ?_⟩
  · obtain ⟨t, fr⟩ := md
    exact analytics_class_of_records t fr
  · exact ((analytics_class_of_records 15000 9).2.2.2.2.2.1).mpr (by decide)
  · exact ((analytics_class_of_records 15000 10).2.2.2.2.2.2).mpr (by decide)

/-- A successful taxonomy lookup returns one of the taxonomy's skill sets. -/
theorem matchRoles_mem (entries : List (String × RoleSkills)) (t : String)
    (s : RoleSkills) (h : matchRoles entries t = some s) :
    s ∈ entries.map Prod.snd := by
  induction entries with
  | nil => simp [matchRoles] at h
  | cons e es ih =>
      obtain ⟨role, skills⟩ := e
      rw [matchRoles] at h
      by_cases hc : containsStr t role
      · rw [if_pos hc] at h
        obtain rfl := Option.some.inj h
        exact List.mem_cons_self _ _
      · rw [if_neg hc] at h
        exact List.mem_cons_of_mem _ (ih h)

/-- Every recommendation is either empty or one of the ten taxonomy skill
sets. -/
theorem getRecommendedSkills_mem (t : String) :
    getRecommendedSkills t ∈ noSkills :: ROLE_SKILL_MAPPING.map Prod.snd := by
  rw [getRecommendedSkills]
  by_cases h : t = ""
  · rw [if_pos h]
    exact List.mem_cons_self _ _
  · rw [if_neg h]
    rcases hm : matchRoles ROLE_SKILL_MAPPING (lowerStr t) with _ | s
    · simp only
      rw [cascadeSkills]
      repeat' split
      all_goals decide
    · simp only
      exact List.mem_cons_of_mem _ (matchRoles_mem _ _ _ hm)

/-- The first four core skills of any recommendation contain no duplicates. -/
theorem core_take4_nodup (t : String) :
    ((getRecommendedSkills t).core.take 4).Nodup := by
  have h := getRecommendedSkills_mem t
  simp only [ROLE_SKILL_MAPPING, List.map_cons, List.map_nil, List.mem_cons,
    List.not_mem_nil, or_false] at h
  rcases h with h | h | h | h | h | h | h | h | h | h | h <;> rw [h] <;> decide

/-- Claim C10: each selected-skills operation — toggling a skill, adding a
trimmed custom skill, and the auto-populate effect — preserves the invariant
that the list has no duplicates and at most 20 entries. -/
theorem skill_ops_invariant :
    ∀ (prev : List String) (skill customSkill jobTitle : String),
      skillsInvariant prev →
      skillsInvariant (toggleSkill skill prev) ∧
      skillsInvariant (addCustomSkill customSkill prev) ∧
      skillsInvariant (autoSelectCoreSkills jobTitle prev) := by
  intro prev skill customSkill jobTitle hinv
  obtain ⟨hnd, hlen⟩ := hinv
  refine ⟨?_, ?_, ?_⟩
  · rw [toggleSkill]
    by_cases hc : prev.contains skill
    · rw [if_pos hc]
      exact ⟨hnd.filter _, le_trans (List.length_filter_le _ _) hlen⟩
    · rw [if_neg hc]
      by_cases hl : prev.length < requiredSkillsMaxItems
      · rw [if_pos hl]
        have hnm : skill ∉ prev := by simpa using hc
        constructor
        · exact List.Nodup.append hnd (List.nodup_singleton _)
            (List.disjoint_singleton.mpr hnm)
        · rw [List.length_append, List.length_singleton]
          omega
      · rw [if_neg hl]
        exact ⟨hnd, hlen⟩
  · simp only [addCustomSkill]
    by_cases h : jsTrim customSkill ≠ "" ∧ ¬prev.contains (jsTrim customSkill) ∧
        prev.length < requiredSkillsMaxItems
    · rw [if_pos h]
      have hnm : jsTrim customSkill ∉ prev := by simpa using h.2.1
      constructor
      · exact List.Nodup.append hnd (List.nodup_singleton _)
          (List.disjoint_singleton.mpr hnm)
      · rw [List.length_append, List.length_singleton]
        have := h.2.2
        omega
    · rw [if_neg h]
      exact ⟨hnd, hlen⟩
  · rw [autoSelectCoreSkills]
    by_cases h : jobTitle ≠ "" ∧ prev.length = 0 ∧
        0 < (getRecommendedSkills jobTitle).core.length
    · rw [if_pos h]
      refine ⟨core_take4_nodup jobTitle, le_trans (List.length_take_le _ _) (by decide)⟩
    · rw [if_neg h]
      exact ⟨hnd, hlen⟩

/-- Witness for C10 starting from the empty selection. -/
theorem skill_ops_invariant_witness :
    skillsInvariant (toggleSkill "Python" []) ∧
    skillsInvariant (addCustomSkill "  SQL " []) ∧
    skillsInvariant (autoSelectCoreSkills "Data Scientist" []) :=
  skill_ops_invariant [] "Python" "  SQL " "Data Scientist"
    ⟨List.nodup_nil, by decide⟩
